import Mathlib

/-!
# Request records of `perf_analyzer` (`src/request_record.h`)

A shallow embedding of the two value types of `request_record.h`:

* `RecordData`: a byte buffer with a cached size and a data-type label, with
  its constructor and its `operator==`;
* `RequestRecord`: the record of one request, with its constructor and the
  default arguments of that constructor.

Modelling conventions.

* `std::vector<T>` is a `List T`; `std::string` is a `String`.
* `uint8_t` is `Fin 256`; `size_t` and `uint64_t` are naturals, reduced
  modulo `2 ^ 64` where the source does arithmetic on them.
* A statement sequence of a constructor body is a chain of `let`s, one per
  source line, in source order; a variable that a line overwrites is
  rebound by that line.
* `std::chrono::time_point<system_clock>` is its tick count since the epoch.
* `std::unordered_map<std::string, RecordData>` is an association list.
* `memcmp` is fallible: it has a result only when it reads inside both
  buffers.
-/

set_option linter.dupNamespace false

namespace triton.perfanalyzer

/-! ## Primitive types -/

/-- An 8-bit unsigned value (`uint8_t`). -/
abbrev uint8_t := Fin 256

/-- The value of `sizeof(uint8_t)`. -/
def sizeof_uint8_t : Nat := 1

/-- The number of values of `size_t` (a 64-bit unsigned integer). -/
def SIZE_MODULUS : Nat := 2 ^ 64

/-- The number of values of `uint64_t`. -/
def UINT64_MODULUS : Nat := 2 ^ 64

/-- Move assignment of vectors, `dst = std::move(src)`, as a function from the
source's contents to the pair (new contents of `dst`, contents left in `src`).
The destination takes over the source's elements; the source is left empty,
which is what the move assignment of `std::vector` with the default allocator
does in libstdc++, libc++ and the MSVC library. -/
def vector_move_assign {α : Type} (src : List α) : List α × List α :=
  (src, [])

/-- The sign-carrying result of comparing two byte strings of equal length
from the front: the difference of the first pair of bytes that differ, and `0`
when there is none. -/
def memcmp_scan : List uint8_t → List uint8_t → Int
  | a :: s1, b :: s2 =>
      if a = b then memcmp_scan s1 s2 else (a.val : Int) - (b.val : Int)
  | _, _ => 0

/-- The C library's `memcmp(s1, s2, n)` on the buffers that `s1` and `s2`
point to. It compares the first `n` bytes of each. Reading past the end of a
buffer has no defined result: `none`. -/
def memcmp (s1 s2 : List uint8_t) (n : Nat) : Option Int :=
  if n ≤ s1.length ∧ n ≤ s2.length then
    some (memcmp_scan (s1.take n) (s2.take n))
  else
    none

/-! ## `struct RecordData` -/

/-- A record containing the data of a single request input or response
output. -/
structure RecordData where
  data_ : List uint8_t
  size_ : Nat
  data_type_ : String
  deriving DecidableEq, Repr

/-- The constructor `RecordData(std::vector<uint8_t>&& buf, std::string data_type)`.
Line by line:
```
data_ = std::move(buf);
size_ = buf.size() * sizeof(uint8_t);
data_type_ = data_type;
```
The second line reads `buf` after the first line has moved from it. -/
def RecordData.RecordData (buf : List uint8_t) (data_type : String) : RecordData :=
  let (data_, buf) := vector_move_assign buf
  let size_ := (buf.length * sizeof_uint8_t) % SIZE_MODULUS
  let data_type_ := data_type
  { data_ := data_, size_ := size_, data_type_ := data_type_ }

/-- The member `bool operator==(const RecordData& other) const`:
```
if (size_ != other.size_)
  return false;
return std::memcmp(data_.data(), other.data_.data(), size_) == 0;
```
The result is `none` when `memcmp` would read outside a buffer. -/
def RecordData.operator_eq (self other : triton.perfanalyzer.RecordData) : Option Bool :=
  if self.size_ ≠ other.size_ then
    some false
  else
    (memcmp self.data_ other.data_ self.size_).map (fun r => r == 0)

/-! ## Time points and maps used by `RequestRecord` -/

/-- A `std::chrono::system_clock::duration`: a signed count of clock ticks. -/
abbrev duration := Int

/-- A `std::chrono::time_point<std::chrono::system_clock>`: the duration since
the clock's epoch. -/
structure time_point where
  time_since_epoch : duration
  deriving DecidableEq, Repr

/-- The default constructor `time_point()`: the epoch, a zero duration. -/
def time_point.epoch : time_point :=
  { time_since_epoch := 0 }

/-- The sum `t + d` of a time point and a duration. -/
def time_point.add (t : time_point) (d : duration) : time_point :=
  { time_since_epoch := t.time_since_epoch + d }

/-- The difference `t1 - t2` of two time points, a duration. -/
def time_point.sub (t1 t2 : time_point) : duration :=
  t1.time_since_epoch - t2.time_since_epoch

/-- The duration `std::chrono::milliseconds(n)` in ticks of the system clock,
whose tick is one nanosecond. -/
def milliseconds (n : Int) : duration :=
  n * 1000000

/-- A `std::unordered_map<std::string, RecordData>`: the entries, with no key
twice. -/
abbrev unordered_map := List (String × RecordData)

/-- The lookup `m.find(key)` of a map: the value stored under `key`, if any. -/
def unordered_map.find (m : unordered_map) (key : String) : Option RecordData :=
  List.lookup key m

/-! ## `struct RequestRecord` -/

/-- The member type `RequestRecord::RequestInput`. -/
abbrev RequestInput := unordered_map

/-- The member type `RequestRecord::ResponseOutput`. -/
abbrev ResponseOutput := unordered_map

/-- A record of an individual request. -/
structure RequestRecord where
  /-- The timestamp of when the request was started. -/
  start_time_ : time_point
  /-- Collection of response timestamps. -/
  response_timestamps_ : List time_point
  request_inputs_ : List RequestInput
  response_outputs_ : List ResponseOutput
  /-- Whether or not the request is at the end of a sequence. -/
  sequence_end_ : Bool
  /-- Whether or not the request is delayed as per schedule. -/
  delayed_ : Bool
  /-- Sequence ID of the request. -/
  sequence_id_ : Nat
  /-- Whether the last response is null. -/
  has_null_last_response_ : Bool
  deriving DecidableEq, Repr

/-- The constructor of `RequestRecord` with all eight arguments given. Its
member initialiser list copies each argument into the field of the same name
and its body is empty. -/
def RequestRecord.RequestRecord
    (start_time : time_point)
    (response_timestamps : List time_point)
    (request_inputs : List RequestInput)
    (response_outputs : List ResponseOutput)
    (sequence_end : Bool) (delayed : Bool) (sequence_id : Nat)
    (has_null_last_response : Bool) : triton.perfanalyzer.RequestRecord :=
  { start_time_ := start_time
    response_timestamps_ := response_timestamps
    request_inputs_ := request_inputs
    response_outputs_ := response_outputs
    sequence_end_ := sequence_end
    delayed_ := delayed
    sequence_id_ := sequence_id
    has_null_last_response_ := has_null_last_response }

/-- The default argument of the parameter `start_time`. -/
def RequestRecord.default_start_time : time_point := time_point.epoch

/-- The default argument `{}` of the parameter `response_timestamps`. -/
def RequestRecord.default_response_timestamps : List time_point := []

/-- The default argument `{}` of the parameter `request_inputs`. -/
def RequestRecord.default_request_inputs : List RequestInput := []

/-- The default argument `{}` of the parameter `response_outputs`. -/
def RequestRecord.default_response_outputs : List ResponseOutput := []

/-- The default argument of the parameter `sequence_end`. -/
def RequestRecord.default_sequence_end : Bool := true

/-- The default argument of the parameter `delayed`. -/
def RequestRecord.default_delayed : Bool := false

/-- The default argument of the parameter `sequence_id`. -/
def RequestRecord.default_sequence_id : Nat := 0

/-- The default argument of the parameter `has_null_last_response`. -/
def RequestRecord.default_has_null_last_response : Bool := false

/-- The call `RequestRecord()`: every parameter takes its default argument. -/
def RequestRecord.RequestRecord_no_args : triton.perfanalyzer.RequestRecord :=
  RequestRecord.RequestRecord
    RequestRecord.default_start_time
    RequestRecord.default_response_timestamps
    RequestRecord.default_request_inputs
    RequestRecord.default_response_outputs
    RequestRecord.default_sequence_end
    RequestRecord.default_delayed
    RequestRecord.default_sequence_id
    RequestRecord.default_has_null_last_response

/-- The call that passes `sequence_id` and spells out the default argument of
every other parameter. -/
def RequestRecord.RequestRecord_sequence_id (sequence_id : Nat) :
    triton.perfanalyzer.RequestRecord :=
  RequestRecord.RequestRecord
    RequestRecord.default_start_time
    RequestRecord.default_response_timestamps
    RequestRecord.default_request_inputs
    RequestRecord.default_response_outputs
    RequestRecord.default_sequence_end
    RequestRecord.default_delayed
    sequence_id
    RequestRecord.default_has_null_last_response

/-! ## Shared lemmas on the `RecordData` constructor and comparison -/

/-- Comparing zero bytes succeeds with result `0`, whatever the buffers. -/
theorem memcmp_zero_bytes (s1 s2 : List uint8_t) : memcmp s1 s2 0 = some 0 := by
  simp [memcmp, memcmp_scan]

/-- The fields of a constructed chunk, one by one. -/
theorem RecordData_fields (buf : List uint8_t) (data_type : String) :
    RecordData.RecordData buf data_type =
      { data_ := buf, size_ := 0, data_type_ := data_type } := by
  simp [RecordData.RecordData, vector_move_assign]

/-- Any two constructed chunks pass the size check and a zero-byte `memcmp`. -/
theorem RecordData_built_compare (b1 b2 : List uint8_t) (t1 t2 : String) :
    RecordData.operator_eq (RecordData.RecordData b1 t1) (RecordData.RecordData b2 t2)
      = some true := by
  simp [RecordData_fields, RecordData.operator_eq, memcmp_zero_bytes]

/-! ## Claims on `RecordData` -/

/-- C1, evaluated on the code: the one-byte buffers `[1]` and `[2]` have the
same length and differ in their only byte, yet the chunks the constructor
builds from them compare equal, because both chunks carry `size_ = 0`. -/
theorem RecordData_eq_at_differing_byte :
    ([1] : List uint8_t).length = ([2] : List uint8_t).length ∧
    ([1] : List uint8_t) ≠ [2] ∧
    RecordData.operator_eq (RecordData.RecordData [1] "FP32")
      (RecordData.RecordData [2] "FP32") = some true := by
  decide

/-- C2, evaluated on the code: the chunk built from the one-byte buffer `[1]`
stores one byte in `data_` and has `size_ = 0`. -/
theorem RecordData_size_at_one_byte :
    (RecordData.RecordData [1] "FP32").data_.length = 1 ∧
    (RecordData.RecordData [1] "FP32").size_ = 0 ∧
    (RecordData.RecordData [1] "FP32").size_
      ≠ (RecordData.RecordData [1] "FP32").data_.length := by
  decide

/-- C3, evaluated on the code: the buffers `[1]` and `[1, 2]` have different
lengths, the first a proper prefix of the second, yet the chunks the
constructor builds from them compare equal. -/
theorem RecordData_eq_at_proper_prefix :
    ([1] : List uint8_t).length ≠ ([1, 2] : List uint8_t).length ∧
    ([1] : List uint8_t) <+: [1, 2] ∧
    RecordData.operator_eq (RecordData.RecordData [1] "FP32")
      (RecordData.RecordData [1, 2] "FP32") = some true := by
  decide

/-- C4: for every byte sequence `b` and every two distinct labels `t1`, `t2`,
the chunks built from `(b, t1)` and `(b, t2)` compare equal; so do the two
zero-length chunks built with these labels. -/
theorem RecordData_eq_same_bytes_distinct_labels
    (b : List uint8_t) (t1 t2 : String) (h : t1 ≠ t2) :
    (RecordData.RecordData b t1).data_type_ ≠ (RecordData.RecordData b t2).data_type_ ∧
    RecordData.operator_eq (RecordData.RecordData b t1) (RecordData.RecordData b t2)
      = some true ∧
    RecordData.operator_eq (RecordData.RecordData [] t1) (RecordData.RecordData [] t2)
      = some true := by
  refine ⟨?_, RecordData_built_compare b b t1 t2, RecordData_built_compare [] [] t1 t2⟩
  simpa [RecordData_fields] using h

/-- C4 at the bytes `[7, 8, 9]` with the labels `"A"` and `"B"`. -/
theorem RecordData_eq_same_bytes_distinct_labels_witness :
    "A" ≠ "B" ∧
    RecordData.operator_eq (RecordData.RecordData [7, 8, 9] "A")
      (RecordData.RecordData [7, 8, 9] "B") = some true ∧
    RecordData.operator_eq (RecordData.RecordData [] "A") (RecordData.RecordData [] "B")
      = some true :=
  ⟨by decide, (RecordData_eq_same_bytes_distinct_labels [7, 8, 9] "A" "B" (by decide)).2⟩

/-- C5: the result of `operator==` does not depend on the label of either
operand: for all chunks `a`, `b` (any field values) and all strings `s1`,
`s2`, replacing `a.data_type_` by `s1` and `b.data_type_` by `s2` leaves the
result of `a == b` unchanged. -/
theorem RecordData_eq_label_independent (a b : RecordData) (s1 s2 : String) :
    RecordData.operator_eq { a with data_type_ := s1 } { b with data_type_ := s2 }
      = RecordData.operator_eq a b := by
  rfl

/-- C8: for every byte sequence `b` and label `t` the constructed chunk stores
both verbatim: `data_` is `b` (same length, same byte at every index) and
`data_type_` is `t`; likewise for the empty buffer and for the empty label. -/
theorem RecordData_stores_verbatim (b : List uint8_t) (t : String) :
    (RecordData.RecordData b t).data_ = b ∧
    (RecordData.RecordData b t).data_.length = b.length ∧
    (∀ i : Nat, (RecordData.RecordData b t).data_[i]? = b[i]?) ∧
    (RecordData.RecordData b t).data_type_ = t ∧
    (RecordData.RecordData [] t).data_ = [] ∧
    (RecordData.RecordData b "").data_type_ = "" := by
  simp [RecordData_fields]

/-! ## Claims on `RequestRecord` -/

/-- C6: the record built by `RequestRecord()` has the epoch (zero duration) as
`start_time_`, empty `response_timestamps_`, `request_inputs_` and
`response_outputs_`, `sequence_end_ = true`, `delayed_ = false`,
`sequence_id_ = 0` and `has_null_last_response_ = false`. -/
theorem RequestRecord_no_args_fields :
    RequestRecord.RequestRecord_no_args.start_time_ = time_point.epoch ∧
    RequestRecord.RequestRecord_no_args.start_time_.time_since_epoch = 0 ∧
    RequestRecord.RequestRecord_no_args.response_timestamps_ = [] ∧
    RequestRecord.RequestRecord_no_args.request_inputs_ = [] ∧
    RequestRecord.RequestRecord_no_args.response_outputs_ = [] ∧
    RequestRecord.RequestRecord_no_args.sequence_end_ = true ∧
    RequestRecord.RequestRecord_no_args.delayed_ = false ∧
    RequestRecord.RequestRecord_no_args.sequence_id_ = 0 ∧
    RequestRecord.RequestRecord_no_args.has_null_last_response_ = false :=
  ⟨rfl, rfl, rfl, rfl, rfl, rfl, rfl, rfl, rfl⟩

/-- C7: for every 64-bit value `s`, the record built with `sequence_id = s`
and the default argument everywhere else has `sequence_id_ = s` and agrees
with the record of `RequestRecord()` on the seven other fields. For every
argument tuple, each of the eight fields equals the argument of the same
name, and two argument tuples that agree on one argument give records that
agree on the field of that name. -/
theorem RequestRecord_fields_independent (s : Nat) (_hs : s < UINT64_MODULUS) :
    ((RequestRecord.RequestRecord_sequence_id s).sequence_id_ = s ∧
      (RequestRecord.RequestRecord_sequence_id s).start_time_
        = RequestRecord.RequestRecord_no_args.start_time_ ∧
      (RequestRecord.RequestRecord_sequence_id s).response_timestamps_
        = RequestRecord.RequestRecord_no_args.response_timestamps_ ∧
      (RequestRecord.RequestRecord_sequence_id s).request_inputs_
        = RequestRecord.RequestRecord_no_args.request_inputs_ ∧
      (RequestRecord.RequestRecord_sequence_id s).response_outputs_
        = RequestRecord.RequestRecord_no_args.response_outputs_ ∧
      (RequestRecord.RequestRecord_sequence_id s).sequence_end_
        = RequestRecord.RequestRecord_no_args.sequence_end_ ∧
      (RequestRecord.RequestRecord_sequence_id s).delayed_
        = RequestRecord.RequestRecord_no_args.delayed_ ∧
      (RequestRecord.RequestRecord_sequence_id s).has_null_last_response_
        = RequestRecord.RequestRecord_no_args.has_null_last_response_) ∧
    (∀ (st : time_point) (ts : List time_point) (ri : List RequestInput)
        (ro : List ResponseOutput) (se d : Bool) (sid : Nat) (hn : Bool),
      sid < UINT64_MODULUS →
      (RequestRecord.RequestRecord st ts ri ro se d sid hn).start_time_ = st ∧
      (RequestRecord.RequestRecord st ts ri ro se d sid hn).response_timestamps_ = ts ∧
      (RequestRecord.RequestRecord st ts ri ro se d sid hn).request_inputs_ = ri ∧
      (RequestRecord.RequestRecord st ts ri ro se d sid hn).response_outputs_ = ro ∧
      (RequestRecord.RequestRecord st ts ri ro se d sid hn).sequence_end_ = se ∧
      (RequestRecord.RequestRecord st ts ri ro se d sid hn).delayed_ = d ∧
      (RequestRecord.RequestRecord st ts ri ro se d sid hn).sequence_id_ = sid ∧
      (RequestRecord.RequestRecord st ts ri ro se d sid hn).has_null_last_response_ = hn) ∧
    (∀ (st st' : time_point) (ts ts' : List time_point) (ri ri' : List RequestInput)
        (ro ro' : List ResponseOutput) (se se' d d' : Bool) (sid sid' : Nat)
        (hn hn' : Bool),
      (st = st' → (RequestRecord.RequestRecord st ts ri ro se d sid hn).start_time_
        = (RequestRecord.RequestRecord st' ts' ri' ro' se' d' sid' hn').start_time_) ∧
      (ts = ts' → (RequestRecord.RequestRecord st ts ri ro se d sid hn).response_timestamps_
        = (RequestRecord.RequestRecord st' ts' ri' ro' se' d' sid' hn').response_timestamps_) ∧
      (ri = ri' → (RequestRecord.RequestRecord st ts ri ro se d sid hn).request_inputs_
        = (RequestRecord.RequestRecord st' ts' ri' ro' se' d' sid' hn').request_inputs_) ∧
      (ro = ro' → (RequestRecord.RequestRecord st ts ri ro se d sid hn).response_outputs_
        = (RequestRecord.RequestRecord st' ts' ri' ro' se' d' sid' hn').response_outputs_) ∧
      (se = se' → (RequestRecord.RequestRecord st ts ri ro se d sid hn).sequence_end_
        = (RequestRecord.RequestRecord st' ts' ri' ro' se' d' sid' hn').sequence_end_) ∧
      (d = d' → (RequestRecord.RequestRecord st ts ri ro se d sid hn).delayed_
        = (RequestRecord.RequestRecord st' ts' ri' ro' se' d' sid' hn').delayed_) ∧
      (sid = sid' → (RequestRecord.RequestRecord st ts ri ro se d sid hn).sequence_id_
        = (RequestRecord.RequestRecord st' ts' ri' ro' se' d' sid' hn').sequence_id_) ∧
      (hn = hn' →
        (RequestRecord.RequestRecord st ts ri ro se d sid hn).has_null_last_response_
        = (RequestRecord.RequestRecord st' ts' ri' ro' se' d' sid' hn').has_null_last_response_)) := by
  refine ⟨⟨rfl, rfl, rfl, rfl, rfl, rfl, rfl, rfl⟩, ?_, ?_⟩
  · intro st ts ri ro se d sid hn _
    exact ⟨rfl, rfl, rfl, rfl, rfl, rfl, rfl, rfl⟩
  · intro st st' ts ts' ri ri' ro ro' se se' d d' sid sid' hn hn'
    exact ⟨id, id, id, id, id, id, id, id⟩

/-- C7 at `sequence_id = 42`: the built record has `sequence_id_ = 42`, and
its seven other fields are those of the record of `RequestRecord()`. -/
theorem RequestRecord_fields_independent_witness :
    42 < UINT64_MODULUS ∧
    (RequestRecord.RequestRecord_sequence_id 42).sequence_id_ = 42 ∧
    (RequestRecord.RequestRecord_sequence_id 42).start_time_ = time_point.epoch ∧
    (RequestRecord.RequestRecord_sequence_id 42).response_timestamps_ = [] ∧
    (RequestRecord.RequestRecord_sequence_id 42).request_inputs_ = [] ∧
    (RequestRecord.RequestRecord_sequence_id 42).response_outputs_ = [] ∧
    (RequestRecord.RequestRecord_sequence_id 42).sequence_end_ = true ∧
    (RequestRecord.RequestRecord_sequence_id 42).delayed_ = false ∧
    (RequestRecord.RequestRecord_sequence_id 42).has_null_last_response_ = false :=
  ⟨by decide, (RequestRecord_fields_independent 42 (by decide)).1⟩

/-- C9: the constructor is total and validates nothing across fields: for
every argument tuple it returns a record whose `response_timestamps_` and
`response_outputs_` are the sequences given, so that when the two sequences
differ in length the stored ones differ in length in the same way; the tuple
with one timestamp and no output is accepted as it is. -/
theorem RequestRecord_accepts_mismatched_counts
    (st : time_point) (ts : List time_point) (ri : List RequestInput)
    (ro : List ResponseOutput) (se d : Bool) (sid : Nat) (hn : Bool) :
    (∃ r : RequestRecord,
      RequestRecord.RequestRecord st ts ri ro se d sid hn = r ∧
      r.response_timestamps_ = ts ∧
      r.response_outputs_ = ro ∧
      (ts.length ≠ ro.length →
        r.response_timestamps_.length = ts.length ∧
        r.response_outputs_.length = ro.length ∧
        r.response_timestamps_.length ≠ r.response_outputs_.length)) ∧
    (RequestRecord.RequestRecord st [time_point.epoch] ri [] se d sid hn).response_timestamps_.length
      = 1 ∧
    (RequestRecord.RequestRecord st [time_point.epoch] ri [] se d sid hn).response_outputs_.length
      = 0 := by
  refine ⟨⟨_, rfl, rfl, rfl, fun h => ⟨rfl, rfl, h⟩⟩, rfl, rfl⟩

/-- C10, evaluated on the code for `T0` at tick `1000` and the payloads `[1]`
and `[2]`: the two latencies are 10 ms and 25 ms, and each stored `"OUTPUT0"`
chunk compares equal to a fresh chunk with the same bytes and another label;
but the two stored chunks, whose bytes differ, compare equal to each other. -/
theorem RequestRecord_scenario_at_distinct_payloads :
    ∃ (r : RequestRecord) (c0 c1 : RecordData),
      r = RequestRecord.RequestRecord ⟨1000⟩
            [time_point.add ⟨1000⟩ (milliseconds 10), time_point.add ⟨1000⟩ (milliseconds 25)]
            []
            [[("OUTPUT0", RecordData.RecordData [1] "BYTES")],
             [("OUTPUT0", RecordData.RecordData [2] "BYTES")]]
            true false 0 false ∧
      r.response_timestamps_.map (fun t => time_point.sub t r.start_time_)
        = [milliseconds 10, milliseconds 25] ∧
      r.response_outputs_.map (fun m => unordered_map.find m "OUTPUT0")
        = [some c0, some c1] ∧
      c0.data_ = [1] ∧ c1.data_ = [2] ∧ c0.data_ ≠ c1.data_ ∧
      RecordData.operator_eq c0 c1 = some true ∧
      RecordData.operator_eq c0 (RecordData.RecordData [1] "FP32") = some true ∧
      RecordData.operator_eq c1 (RecordData.RecordData [2] "FP32") = some true := by
  refine ⟨_, RecordData.RecordData [1] "BYTES", RecordData.RecordData [2] "BYTES", rfl, ?_⟩
  decide

/-! ## Behaviour of the constructor and of the comparison -/

/-- On byte strings of one length the scan is `0` exactly when the strings are
equal. -/
theorem memcmp_scan_eq_zero_iff (s1 s2 : List uint8_t) (h : s1.length = s2.length) :
    memcmp_scan s1 s2 = 0 ↔ s1 = s2 := by
  induction s1 generalizing s2 with
  | nil =>
    cases s2 with
    | nil => simp [memcmp_scan]
    | cons b s2 => simp at h
  | cons a s1 ih =>
    cases s2 with
    | nil => simp at h
    | cons b s2 =>
      have hlen : s1.length = s2.length := by simpa using h
      by_cases hab : a = b
      · simp [memcmp_scan, hab, ih s2 hlen]
      · have hval : (a.val : Int) - (b.val : Int) ≠ 0 := by
          intro h0
          apply hab
          apply Fin.ext
          omega
        simp [memcmp_scan, hab, hval]

/-- The comparison of two chunks whose `size_` does not exceed their buffers:
it succeeds, and it is true exactly when the `size_` fields are equal and the
first `size_` bytes of the two buffers are equal. -/
theorem RecordData_operator_eq_bounded (a b : RecordData)
    (ha : a.size_ ≤ a.data_.length) (hb : b.size_ ≤ b.data_.length) :
    RecordData.operator_eq a b
      = some (decide (a.size_ = b.size_ ∧ a.data_.take a.size_ = b.data_.take b.size_)) := by
  unfold RecordData.operator_eq
  by_cases hs : a.size_ = b.size_
  · have hb2 : a.size_ ≤ b.data_.length := by omega
    have hlen : (a.data_.take a.size_).length = (b.data_.take a.size_).length := by
      simp [List.length_take, Nat.min_eq_left ha, Nat.min_eq_left hb2]
    have hz := memcmp_scan_eq_zero_iff (a.data_.take a.size_) (b.data_.take a.size_) hlen
    rw [← hs]
    by_cases he : a.data_.take a.size_ = b.data_.take a.size_
    · have h0 := hz.mpr he
      simp only [memcmp, ha, hb2, and_self, if_true, h0, ne_eq, not_true_eq_false, if_false,
        Option.map_some', beq_self_eq_true, true_and]
      simp [he]
    · have hne : memcmp_scan (a.data_.take a.size_) (b.data_.take a.size_) ≠ 0 :=
        fun h0 => he (hz.mp h0)
      simp [memcmp, ha, hb2, he, hne]
  · simp [hs]

/-- The comparison `memcmp` has no result exactly when the byte count exceeds
one of the two buffers. -/
theorem memcmp_eq_none_iff (s1 s2 : List uint8_t) (n : Nat) :
    memcmp s1 s2 n = none ↔ ¬ (n ≤ s1.length ∧ n ≤ s2.length) := by
  unfold memcmp
  split <;> simp_all

/-- C11: the constructor reads the size from the parameter `buf` after `buf`
has been moved into `data_`. For every byte sequence `b` and label `t` the
built chunk has `size_ = 0` while `data_` is all of `b`; `size_` is the size
of the moved-from parameter (times `sizeof(uint8_t)`), and it coincides with
the number of stored bytes only when `b` is empty. -/
theorem RecordData_size_read_after_move (b : List uint8_t) (t : String) :
    (RecordData.RecordData b t).size_ = 0 ∧
    (RecordData.RecordData b t).data_ = b ∧
    (vector_move_assign b).1 = b ∧
    (vector_move_assign b).2 = [] ∧
    (RecordData.RecordData b t).size_
      = ((vector_move_assign b).2.length * sizeof_uint8_t) % SIZE_MODULUS ∧
    ((RecordData.RecordData b t).size_ = (RecordData.RecordData b t).data_.length ↔ b = []) := by
  refine ⟨by simp [RecordData_fields], by simp [RecordData_fields], rfl, rfl, rfl, ?_⟩
  simp only [RecordData_fields]
  constructor
  · intro h
    exact List.length_eq_zero.mp h.symm
  · intro h
    simp [h]

/-- C12: on chunks whose `size_` does not exceed the length of their `data_`,
`operator==` is an equivalence relation: `a == a` is true, `a == b` is the
same as `b == a`, and `a == b` with `b == c` gives `a == c`; on such chunks
the comparison is: the `size_` fields are equal and the first `size_` bytes of
the two buffers are equal. -/
theorem RecordData_operator_eq_equivalence (a b c : RecordData)
    (ha : a.size_ ≤ a.data_.length) (hb : b.size_ ≤ b.data_.length)
    (hc : c.size_ ≤ c.data_.length) :
    RecordData.operator_eq a a = some true ∧
    RecordData.operator_eq a b = RecordData.operator_eq b a ∧
    (RecordData.operator_eq a b = some true → RecordData.operator_eq b c = some true →
      RecordData.operator_eq a c = some true) ∧
    RecordData.operator_eq a b
      = some (decide (a.size_ = b.size_ ∧ a.data_.take a.size_ = b.data_.take b.size_)) := by
  refine ⟨?_, ?_, ?_, RecordData_operator_eq_bounded a b ha hb⟩
  · simp [RecordData_operator_eq_bounded a a ha ha]
  · rw [RecordData_operator_eq_bounded a b ha hb, RecordData_operator_eq_bounded b a hb ha]
    congr 1
    apply decide_eq_decide.mpr
    constructor
    · rintro ⟨h1, h2⟩
      exact ⟨h1.symm, h2.symm⟩
    · rintro ⟨h1, h2⟩
      exact ⟨h1.symm, h2.symm⟩
  · rw [RecordData_operator_eq_bounded a b ha hb, RecordData_operator_eq_bounded b c hb hc,
      RecordData_operator_eq_bounded a c ha hc]
    intro hab hbc
    simp only [Option.some.injEq, decide_eq_true_eq] at hab hbc ⊢
    exact ⟨hab.1.trans hbc.1, hab.2.trans hbc.2⟩

/-- C12 at three chunks that compare two bytes each: `[1, 2, 9]`, `[1, 2]` and
`[1, 2, 7, 7]`, all with `size_ = 2` and with different labels. -/
theorem RecordData_operator_eq_equivalence_witness :
    (2 ≤ ([1, 2, 9] : List uint8_t).length ∧ 2 ≤ ([1, 2] : List uint8_t).length ∧
      2 ≤ ([1, 2, 7, 7] : List uint8_t).length) ∧
    RecordData.operator_eq ⟨[1, 2, 9], 2, "A"⟩ ⟨[1, 2, 9], 2, "A"⟩ = some true ∧
    RecordData.operator_eq ⟨[1, 2, 9], 2, "A"⟩ ⟨[1, 2], 2, "B"⟩
      = RecordData.operator_eq ⟨[1, 2], 2, "B"⟩ ⟨[1, 2, 9], 2, "A"⟩ ∧
    (RecordData.operator_eq ⟨[1, 2, 9], 2, "A"⟩ ⟨[1, 2], 2, "B"⟩ = some true →
      RecordData.operator_eq ⟨[1, 2], 2, "B"⟩ ⟨[1, 2, 7, 7], 2, "C"⟩ = some true →
      RecordData.operator_eq ⟨[1, 2, 9], 2, "A"⟩ ⟨[1, 2, 7, 7], 2, "C"⟩ = some true) ∧
    RecordData.operator_eq ⟨[1, 2, 9], 2, "A"⟩ ⟨[1, 2], 2, "B"⟩ = some true :=
  have h := RecordData_operator_eq_equivalence ⟨[1, 2, 9], 2, "A"⟩ ⟨[1, 2], 2, "B"⟩
    ⟨[1, 2, 7, 7], 2, "C"⟩ (by decide) (by decide) (by decide)
  ⟨by decide, h.1, h.2.1, h.2.2.1, by decide⟩

/-- C13: for every two chunks built by the constructor, `operator==` reads
only inside both buffers: when the size check passes, the number of bytes
compared is at most the length of either chunk's `data_`, so `memcmp` and the
comparison have a result; a chunk not built by the constructor, with `size_`
above its buffer, is where the out-of-range case arises. -/
theorem RecordData_operator_eq_reads_in_bounds (b1 b2 : List uint8_t) (t1 t2 : String) :
    ((RecordData.RecordData b1 t1).size_ = (RecordData.RecordData b2 t2).size_ →
      (RecordData.RecordData b1 t1).size_ ≤ (RecordData.RecordData b1 t1).data_.length ∧
      (RecordData.RecordData b1 t1).size_ ≤ (RecordData.RecordData b2 t2).data_.length) ∧
    memcmp (RecordData.RecordData b1 t1).data_ (RecordData.RecordData b2 t2).data_
      (RecordData.RecordData b1 t1).size_ ≠ none ∧
    RecordData.operator_eq (RecordData.RecordData b1 t1) (RecordData.RecordData b2 t2) ≠ none ∧
    RecordData.operator_eq ⟨[1], 2, "FP32"⟩ ⟨[1], 2, "FP32"⟩ = none := by
  refine ⟨?_, ?_, ?_, by decide⟩
  · intro _
    simp [RecordData_fields]
  · rw [Ne, memcmp_eq_none_iff]
    simp [RecordData_fields]
  · simp [RecordData_built_compare]

end triton.perfanalyzer
